import Mathlib

/-!
Shallow embedding of `surfman`'s macOS CGL context layer
(`src/surfman/src/platform/macos/cgl/context.rs`).

Native CGL calls are external to the library; they are embedded as an
explicit oracle (`CGLHost`) describing the results the native API returns,
and every operation additionally produces a trace of the native calls it
performed (`NativeCall`), so that properties about *which* native primitives
run, and in what order, are provable.
-/

namespace Surfman

/-- CGL error codes (`CGLError` in the `cgl` crate); `0` is `kCGLNoError`. -/
abbrev CGLError := Int

/-- No CGL error occurred (`kCGLNoError` in `context.rs`). -/
def kCGLNoError : CGLError := 0

/-- A native CGL context handle (`CGLContextObj`); `0` models the null pointer. -/
abbrev CGLContextObj := Nat

/-- Choose a renderer compatible with GL 1.0 (`kCGLOGLPVersion_Legacy`). -/
def kCGLOGLPVersion_Legacy : Int := 0x1000

/-- Choose a renderer capable of GL 3.2 or later (`kCGLOGLPVersion_3_2_Core`). -/
def kCGLOGLPVersion_3_2_Core : Int := 0x3200

/-- Choose a renderer capable of GL 4.1 or later (`kCGLOGLPVersion_GL4_Core`). -/
def kCGLOGLPVersion_GL4_Core : Int := 0x4100

/-- Pixel-format attribute keys, with the numeric values of the `cgl` crate. -/
def kCGLPFAOpenGLProfile : Int := 99

def kCGLPFAAlphaSize : Int := 11

def kCGLPFADepthSize : Int := 12

def kCGLPFAStencilSize : Int := 13

def kCGLPFAAllowOfflineRenderers : Int := 96

/-- The error type of the library (`crate::Error`), restricted to the variants
this module produces or propagates. Error variants that carry a native error
code carry the raw `CGLError` here (the source routes it through
`ToWindowingApiError`, a bijective renaming that lives outside this module). -/
inductive Error where
  | PixelFormatSelectionFailed (code : CGLError)
  | NoPixelFormatFound
  | ContextCreationFailed (code : CGLError)
  | MakeCurrentFailed (code : CGLError)
  | ExternalRenderTarget
  | SurfaceAlreadyBound
  | IncompatibleSurface
  | SurfaceSubsystemFailed (code : Int)
deriving DecidableEq, Repr

/-- `ContextAttributeFlags`: the three optional-buffer flags used by this
module (`ALPHA`, `DEPTH`, `STENCIL`). -/
structure ContextAttributeFlags where
  alpha : Bool
  depth : Bool
  stencil : Bool
deriving DecidableEq, Repr

/-- `GLVersion { major: u8, minor: u8 }`. -/
structure GLVersion where
  major : Nat
  minor : Nat
deriving DecidableEq, Repr

/-- `ContextAttributes`: requested GL version plus flags. -/
structure ContextAttributes where
  version : GLVersion
  flags : ContextAttributeFlags
deriving DecidableEq, Repr

/-- A `Surface`, seen by this module only through its owning-context id
(`surface.context_id`) and an opaque identity. -/
structure Surface where
  context_id : Nat
  handle : Nat
deriving DecidableEq, Repr

/-- `Framebuffer<S>` (from `surface.rs`): the three mutually exclusive
framebuffer-binding states of a context. -/
inductive Framebuffer (S : Type) where
  | None
  | External
  | Surface (surface : S)
deriving DecidableEq, Repr

/-- `NativeContext`, as a closed sum over the two implementations:
`OwnedCGLContext` (created by this library, destroyable) and
`UnsafeCGLContextRef` (adopted from elsewhere, never natively destroyed).
Both store a `CGLContextObj` that is nulled out on (local) destruction. -/
inductive NativeContext where
  | Owned (cgl_context : CGLContextObj)
  | External (cgl_context : CGLContextObj)
deriving DecidableEq, Repr

/-- `NativeContext::cgl_context()`: access to the stored handle. -/
def NativeContext.cgl_context : NativeContext → CGLContextObj
  | .Owned h => h
  | .External h => h

/-- `NativeContext::is_destroyed()`: both implementations report destroyed
exactly when the stored handle is null. -/
def NativeContext.is_destroyed (n : NativeContext) : Bool :=
  n.cgl_context == 0

/-- `Context`: native context, process-unique id, framebuffer slot. -/
structure Context where
  native_context : NativeContext
  id : Nat
  framebuffer : Framebuffer Surface
deriving DecidableEq, Repr

/-- One native call performed by an operation, recorded in its trace. -/
inductive NativeCall where
  | cglCreateContext
  | cglSetCurrentContext (h : CGLContextObj)
  | cglGetCurrentContext
  | cglDestroyContext (h : CGLContextObj)
  | glFlush
  | destroySurface (s : Surface)
deriving DecidableEq, Repr

/-- `NativeContext::destroy()`: `OwnedCGLContext` clears the current context,
invokes the native destroy primitive `CGLDestroyContext`, and nulls the stored
handle; `UnsafeCGLContextRef` only nulls the stored handle, with no native
call. (The source asserts `!is_destroyed()` on entry; `destroy_context`
guards every call to this with that check.) -/
def NativeContext.destroy : NativeContext → NativeContext × List NativeCall
  | .Owned h => (.Owned 0, [.cglSetCurrentContext 0, .cglDestroyContext h])
  | .External _ => (.External 0, [])

/-- The oracle for the native API: the results that the CGL calls and the
surface subsystem return during an operation. -/
structure CGLHost where
  /-- Error code returned by `CGLCreateContext`. -/
  createContextErr : CGLError
  /-- Handle produced by `CGLCreateContext` on success (nonnull in source:
  `debug_assert_ne!(cgl_context, ptr::null_mut())`). -/
  createContextHandle : CGLContextObj
  /-- Error code returned by `CGLSetCurrentContext` for a given handle. -/
  setCurrentErr : CGLContextObj → CGLError
  /-- Handle returned by `CGLGetCurrentContext`. -/
  getCurrentContext : CGLContextObj
  /-- Result of the surface subsystem's `destroy_surface`. -/
  destroySurface : Surface → Except Error Unit

namespace Device

/-- `Device::bind_surface_to_context`: checks the framebuffer state, then the
surface's owning-context id, then transitions to `Surface(new_surface)`.
Returns the result and the (possibly updated) context. -/
def bind_surface_to_context (context : Context) (new_surface : Surface) :
    Except Error Unit × Context :=
  match context.framebuffer with
  | .External => (.error .ExternalRenderTarget, context)
  | .Surface _ => (.error .SurfaceAlreadyBound, context)
  | .None =>
    if new_surface.context_id ≠ context.id then
      (.error .IncompatibleSurface, context)
    else
      (.ok (), { context with framebuffer := .Surface new_surface })

/-- `Device::unbind_surface_from_context`: fails on `External`; on `None`
returns `Ok(None)`; on `Surface(s)` replaces the framebuffer with `None`,
temporarily makes the context current via `temporarily_make_context_current`
(the guard captures the previously current handle with
`CGLGetCurrentContext` on construction and restores it with
`CGLSetCurrentContext` on drop), flushes (`gl.Flush()`), and returns
`Ok(Some(s))`. If the make-current step fails, the error propagates out of
the closure after the guard's drop has restored the old current context. -/
def unbind_surface_from_context (host : CGLHost) (context : Context) :
    Except Error (Option Surface) × Context × List NativeCall :=
  match context.framebuffer with
  | .External => (.error .ExternalRenderTarget, context, [])
  | .None => (.ok none, context, [])
  | .Surface surface =>
    let context := { context with framebuffer := Framebuffer.None }
    let h := context.native_context.cgl_context
    let old := host.getCurrentContext
    if host.setCurrentErr h ≠ kCGLNoError then
      (.error (.MakeCurrentFailed (host.setCurrentErr h)), context,
        [.cglGetCurrentContext, .cglSetCurrentContext h, .cglSetCurrentContext old])
    else
      (.ok (some surface), context,
        [.cglGetCurrentContext, .cglSetCurrentContext h, .glFlush,
         .cglSetCurrentContext old])

/-- `Device::create_context`: creates the native CGL context from the
descriptor's pixel format, makes it current, then assigns the next
`ContextID` (incrementing the lock-guarded counter) with an initial
framebuffer of `None`. Takes and returns the counter; also returns the
native-call trace. -/
def create_context (host : CGLHost) (next_context_id : Nat) :
    Except Error Context × Nat × List NativeCall :=
  if host.createContextErr ≠ kCGLNoError then
    (.error (.ContextCreationFailed host.createContextErr), next_context_id,
      [.cglCreateContext])
  else
    let cgl_context := host.createContextHandle
    let native_context := NativeContext.Owned cgl_context
    if host.setCurrentErr native_context.cgl_context ≠ kCGLNoError then
      (.error (.MakeCurrentFailed (host.setCurrentErr native_context.cgl_context)),
        next_context_id,
        [.cglCreateContext, .cglSetCurrentContext native_context.cgl_context])
    else
      (.ok { native_context, id := next_context_id, framebuffer := .None },
        next_context_id + 1,
        [.cglCreateContext, .cglSetCurrentContext native_context.cgl_context])

/-- `Device::destroy_context`: returns `Ok(())` immediately if the native
context is already destroyed; otherwise replaces the framebuffer with `None`
and, if a surface was bound, destroys it through the surface subsystem
(propagating its error); then destroys the native context. -/
def destroy_context (host : CGLHost) (context : Context) :
    Except Error Unit × Context × List NativeCall :=
  if context.native_context.is_destroyed then
    (.ok (), context, [])
  else
    match context.framebuffer with
    | .Surface surface =>
      let context := { context with framebuffer := Framebuffer.None }
      match host.destroySurface surface with
      | .error e => (.error e, context, [.destroySurface surface])
      | .ok () =>
        let d := context.native_context.destroy
        (.ok (), { context with native_context := d.1 },
          .destroySurface surface :: d.2)
    | _ =>
      let context := { context with framebuffer := Framebuffer.None }
      let d := context.native_context.destroy
      (.ok (), { context with native_context := d.1 }, d.2)

end Device

/-- `<Context as Drop>::drop` raises a panic exactly when the native context
is not destroyed and the thread is not already panicking
(`!self.native_context.is_destroyed() && !thread::panicking()`). -/
def Context.dropPanics (context : Context) (thread_panicking : Bool) : Bool :=
  !context.native_context.is_destroyed && !thread_panicking

/-- The profile tier `create_context_descriptor` selects from the requested
major version. -/
def chooseProfile (attributes : ContextAttributes) : Int :=
  if attributes.version.major ≥ 4 then kCGLOGLPVersion_GL4_Core
  else if attributes.version.major = 3 then kCGLOGLPVersion_3_2_Core
  else kCGLOGLPVersion_Legacy

/-- The `cgl_pixel_format_attributes` list that `create_context_descriptor`
builds and passes to `CGLChoosePixelFormat`: profile and buffer sizes as
key/value pairs, `kCGLPFAAllowOfflineRenderers` appended for a low-power
adapter, then the two terminating zeros. -/
def cglPixelFormatAttributes (attributes : ContextAttributes)
    (is_low_power : Bool) : List Int :=
  let flags := attributes.flags
  let alpha_size : Int := if flags.alpha then 8 else 0
  let depth_size : Int := if flags.depth then 24 else 0
  let stencil_size : Int := if flags.stencil then 8 else 0
  ([kCGLPFAOpenGLProfile, chooseProfile attributes,
    kCGLPFAAlphaSize, alpha_size,
    kCGLPFADepthSize, depth_size,
    kCGLPFAStencilSize, stencil_size]
   ++ (if is_low_power then [kCGLPFAAllowOfflineRenderers] else []))
  ++ [0, 0]

/-- Reads the value requested for a pixel-format attribute key out of a
key/value attribute list (the first occurrence of the key wins). -/
def requestedAttributeValue : List Int → Int → Option Int
  | [], _ => none
  | [_], _ => none
  | k :: v :: rest, key =>
    if k = key then some v else requestedAttributeValue rest key

/-- Modelled from the spec: the native pixel-format object behind
`CGLPixelFormatObj` is opaque platform state (`CGLChoosePixelFormat` /
`CGLDescribePixelFormat` are external collaborators, §6). Per the narrow
interface `choose_pixel_format(attrs) -> (handle, count)` and
`describe_pixel_format(handle, attr) -> value`, the chosen format is
modelled as storing the requested attribute values, which `describe`
returns back. -/
structure CGLPixelFormatObjData where
  alphaSize : Int
  depthSize : Int
  stencilSize : Int
  openGLProfile : Int
deriving DecidableEq, Repr

/-- `ContextDescriptor`: wraps the (modelled) native pixel format. -/
structure ContextDescriptor where
  cgl_pixel_format : CGLPixelFormatObjData
deriving DecidableEq, Repr

/-- Oracle for `CGLChoosePixelFormat`: its error code and the number of
matching pixel formats it reports. -/
structure PixelFormatHost where
  chooseErr : CGLError
  chooseCount : Int

namespace Device

/-- `Device::create_context_descriptor`: maps the requested major version to
a profile tier and each flag to a fixed buffer size, builds the attribute
list (with the offline-renderers request iff the adapter is low-power), and
delegates selection to `CGLChoosePixelFormat`; fails with
`PixelFormatSelectionFailed` on a native error and `NoPixelFormatFound` when
zero formats match. -/
def create_context_descriptor (host : PixelFormatHost) (is_low_power : Bool)
    (attributes : ContextAttributes) : Except Error ContextDescriptor :=
  let attrs := cglPixelFormatAttributes attributes is_low_power
  if host.chooseErr ≠ kCGLNoError then
    .error (.PixelFormatSelectionFailed host.chooseErr)
  else if host.chooseCount = 0 then
    .error .NoPixelFormatFound
  else
    .ok { cgl_pixel_format :=
            { alphaSize := (requestedAttributeValue attrs kCGLPFAAlphaSize).getD 0,
              depthSize := (requestedAttributeValue attrs kCGLPFADepthSize).getD 0,
              stencilSize := (requestedAttributeValue attrs kCGLPFAStencilSize).getD 0,
              openGLProfile :=
                (requestedAttributeValue attrs kCGLPFAOpenGLProfile).getD 0 } }

/-- The version reconstruction in `context_descriptor_attributes`:
`GLVersion::new(((gl_profile >> 12) & 0xf) as u8, ((gl_profile >> 8) & 0xf) as u8)`.
Division and remainder on `Int` here are floor/euclidean, which agree with
the i32 arithmetic shift and mask for every value that occurs. -/
def decodeVersion (gl_profile : Int) : GLVersion :=
  { major := ((gl_profile / 4096) % 16).toNat,
    minor := ((gl_profile / 256) % 16).toNat }

/-- `Device::context_descriptor_attributes`: queries alpha/depth/stencil
sizes and the GL profile from the pixel format, sets each flag iff its size
is nonzero, and decodes a version from the profile value. -/
def context_descriptor_attributes (context_descriptor : ContextDescriptor) :
    ContextAttributes :=
  let pf := context_descriptor.cgl_pixel_format
  { flags := { alpha := pf.alphaSize != 0,
               depth := pf.depthSize != 0,
               stencil := pf.stencilSize != 0 },
    version := decodeVersion pf.openGLProfile }

end Device

/-! Concrete instances used by the closed witnesses below. -/

/-- A live owned context with no surface bound. -/
def ctxNone : Context :=
  { native_context := .Owned 7, id := 1, framebuffer := .None }

/-- A surface owned by context id 1. -/
def surfOk : Surface := { context_id := 1, handle := 5 }

/-- A surface owned by context id 2. -/
def surfMismatch : Surface := { context_id := 2, handle := 9 }

/-- An adopted context: external native context, `External` framebuffer. -/
def ctxExternalFb : Context :=
  { native_context := .External 3, id := 1, framebuffer := .External }

/-- A live owned context with `surfOk` bound. -/
def ctxWithSurface : Context :=
  { native_context := .Owned 7, id := 1, framebuffer := .Surface surfOk }

/-- A host on which every native call succeeds. -/
def hostOk : CGLHost :=
  { createContextErr := 0, createContextHandle := 7,
    setCurrentErr := fun _ => 0, getCurrentContext := 2,
    destroySurface := fun _ => .ok () }

/-- A host on which `CGLSetCurrentContext` fails with error code 1. -/
def hostBadMakeCurrent : CGLHost :=
  { createContextErr := 0, createContextHandle := 7,
    setCurrentErr := fun _ => 1, getCurrentContext := 2,
    destroySurface := fun _ => .ok () }

/-- Number of `CGLDestroyContext` invocations in a trace. -/
def cglDestroyCallCount : List NativeCall → Nat
  | [] => 0
  | .cglDestroyContext _ :: rest => cglDestroyCallCount rest + 1
  | _ :: rest => cglDestroyCallCount rest

/-- A requested attribute set: GL 3.2 with alpha and depth buffers. -/
def attrsA : ContextAttributes :=
  { version := { major := 3, minor := 2 },
    flags := { alpha := true, depth := true, stencil := false } }

/-- A pixel-format host on which `CGLChoosePixelFormat` succeeds with one
matching format. -/
def pfHostOk : PixelFormatHost := { chooseErr := 0, chooseCount := 1 }

/-- The descriptor selected for `attrsA`. -/
def cdA : ContextDescriptor :=
  { cgl_pixel_format :=
      { alphaSize := 8, depthSize := 24, stencilSize := 0,
        openGLProfile := 0x3200 } }

/-- C3: `bind_surface_to_context(c, s)` fails with `ExternalRenderTarget`
when the framebuffer state is `External`; fails with `SurfaceAlreadyBound`
when the state is already `Surface(_)`, leaving the previously bound surface
bound (the context is unchanged); fails with `IncompatibleSurface` when the
state is `None` but the surface's owning-context id differs from the
context's id; and otherwise transitions the state to `Surface(s)`. -/
theorem C3_bind_surface_state_machine (c : Context) (s : Surface) :
    (c.framebuffer = .External →
      Device.bind_surface_to_context c s = (.error .ExternalRenderTarget, c)) ∧
    (∀ s0, c.framebuffer = .Surface s0 →
      Device.bind_surface_to_context c s = (.error .SurfaceAlreadyBound, c)) ∧
    (c.framebuffer = .None → s.context_id ≠ c.id →
      Device.bind_surface_to_context c s = (.error .IncompatibleSurface, c)) ∧
    (c.framebuffer = .None → s.context_id = c.id →
      Device.bind_surface_to_context c s =
        (.ok (), { c with framebuffer := .Surface s })) := by
  refine ⟨?_, ?_, ?_, ?_⟩
  · intro h
    simp [Device.bind_surface_to_context, h]
  · intro s0 h
    simp [Device.bind_surface_to_context, h]
  · intro h hid
    simp [Device.bind_surface_to_context, h, hid]
  · intro h hid
    simp [Device.bind_surface_to_context, h, hid]

/-- C3 witness: binding a compatible surface to a live context in the `None`
state succeeds and transitions to `Surface`. -/
theorem C3_witness :
    Device.bind_surface_to_context ctxNone surfOk =
      (.ok (), { ctxNone with framebuffer := .Surface surfOk }) :=
  (C3_bind_surface_state_machine ctxNone surfOk).2.2.2 rfl rfl

/-- C6 counterexample: on a context whose framebuffer state is `External`, a
surface with a mismatched owning-context id is rejected with
`ExternalRenderTarget`, not `IncompatibleSurface` — so the unconditional
"fails with IncompatibleSurface whenever the ids differ" is false. -/
theorem C6_counterexample :
    surfMismatch.context_id ≠ ctxExternalFb.id ∧
    (Device.bind_surface_to_context ctxExternalFb surfMismatch).1 =
      .error .ExternalRenderTarget ∧
    Error.ExternalRenderTarget ≠ Error.IncompatibleSurface :=
  ⟨by decide, rfl, by decide⟩

/-- C6 (amended): when `c`'s framebuffer state is `None`,
`bind_surface_to_context(c, s)` fails with `IncompatibleSurface` exactly when
`s`'s owning-context id differs from `c`'s id, and succeeds otherwise. -/
theorem C6_bind_incompatible_amended (c : Context) (s : Surface)
    (h : c.framebuffer = .None) :
    (s.context_id ≠ c.id →
      Device.bind_surface_to_context c s = (.error .IncompatibleSurface, c)) ∧
    (s.context_id = c.id →
      Device.bind_surface_to_context c s =
        (.ok (), { c with framebuffer := .Surface s })) := by
  constructor
  · intro hid
    simp [Device.bind_surface_to_context, h, hid]
  · intro hid
    simp [Device.bind_surface_to_context, h, hid]

/-- C6 witness: a mismatched surface on a `None`-state context is rejected
with `IncompatibleSurface`. -/
theorem C6_witness :
    Device.bind_surface_to_context ctxNone surfMismatch =
      (.error .IncompatibleSurface, ctxNone) :=
  (C6_bind_incompatible_amended ctxNone surfMismatch rfl).1 (by decide)

/-- C4: `unbind_surface_from_context` fails with `ExternalRenderTarget` in
the `External` state; returns `Ok(None)` leaving the state `None` in the
`None` state; and in the `Surface(s)` state (when making the context current
succeeds) transitions the state to `None`, flushes the command stream while
the context is temporarily current via the scoped guard (capture old current,
make current, flush, restore old), and returns `Ok(Some(s))`. -/
theorem C4_unbind_surface (host : CGLHost) (c : Context) :
    (c.framebuffer = .External →
      Device.unbind_surface_from_context host c =
        (.error .ExternalRenderTarget, c, [])) ∧
    (c.framebuffer = .None →
      Device.unbind_surface_from_context host c = (.ok none, c, [])) ∧
    (∀ s, c.framebuffer = .Surface s →
      host.setCurrentErr c.native_context.cgl_context = kCGLNoError →
      Device.unbind_surface_from_context host c =
        (.ok (some s), { c with framebuffer := .None },
         [.cglGetCurrentContext,
          .cglSetCurrentContext c.native_context.cgl_context,
          .glFlush,
          .cglSetCurrentContext host.getCurrentContext])) := by
  refine ⟨?_, ?_, ?_⟩
  · intro h
    simp [Device.unbind_surface_from_context, h]
  · intro h
    simp [Device.unbind_surface_from_context, h]
  · intro s h herr
    simp [Device.unbind_surface_from_context, h, herr]

/-- C4 witness: unbinding from a context holding a surface returns that
surface, resets the state to `None`, and flushes between making the context
current and restoring the old current context. -/
theorem C4_witness :
    Device.unbind_surface_from_context hostOk ctxWithSurface =
      (.ok (some surfOk), { ctxWithSurface with framebuffer := .None },
       [.cglGetCurrentContext, .cglSetCurrentContext 7, .glFlush,
        .cglSetCurrentContext 2]) :=
  (C4_unbind_surface hostOk ctxWithSurface).2.2 surfOk rfl rfl

/-- C10: when the framebuffer state is `Surface(s)` and the temporary
make-current step inside `unbind_surface_from_context` fails, the call
returns `MakeCurrentFailed` with that native code, but the framebuffer has
already transitioned to `None` and the surface is neither returned nor
re-bound (the trace shows the guard restoring the old current context and no
flush). -/
theorem C10_unbind_make_current_failure (host : CGLHost) (c : Context)
    (s : Surface) (hs : c.framebuffer = .Surface s)
    (herr : host.setCurrentErr c.native_context.cgl_context ≠ kCGLNoError) :
    Device.unbind_surface_from_context host c =
      (.error (.MakeCurrentFailed
                 (host.setCurrentErr c.native_context.cgl_context)),
       { c with framebuffer := .None },
       [.cglGetCurrentContext,
        .cglSetCurrentContext c.native_context.cgl_context,
        .cglSetCurrentContext host.getCurrentContext]) := by
  simp [Device.unbind_surface_from_context, hs, herr]

/-- C10 witness: on a host whose `CGLSetCurrentContext` fails with code 1,
unbinding returns `MakeCurrentFailed 1`, the framebuffer is `None`, and the
bound surface is gone from the result. -/
theorem C10_witness :
    Device.unbind_surface_from_context hostBadMakeCurrent ctxWithSurface =
      (.error (.MakeCurrentFailed 1),
       { ctxWithSurface with framebuffer := .None },
       [.cglGetCurrentContext, .cglSetCurrentContext 7,
        .cglSetCurrentContext 2]) :=
  C10_unbind_make_current_failure hostBadMakeCurrent ctxWithSurface surfOk rfl
    (by decide)

/-- C1: `create_context` first creates the native handle from the
descriptor, failing with `ContextCreationFailed` and the native code on a
native error; then makes the new context current, failing with
`MakeCurrentFailed` and the native code on a native error; on success it
assigns the next `ContextID` (incrementing the counter), sets the initial
framebuffer to `None`, and returns an owned-variant context. -/
theorem C1_create_context_steps (host : CGLHost) (next_id : Nat) :
    (host.createContextErr ≠ kCGLNoError →
      Device.create_context host next_id =
        (.error (.ContextCreationFailed host.createContextErr), next_id,
         [.cglCreateContext])) ∧
    (host.createContextErr = kCGLNoError →
      host.setCurrentErr host.createContextHandle ≠ kCGLNoError →
      Device.create_context host next_id =
        (.error (.MakeCurrentFailed
                   (host.setCurrentErr host.createContextHandle)),
         next_id,
         [.cglCreateContext,
          .cglSetCurrentContext host.createContextHandle])) ∧
    (host.createContextErr = kCGLNoError →
      host.setCurrentErr host.createContextHandle = kCGLNoError →
      Device.create_context host next_id =
        (.ok { native_context := .Owned host.createContextHandle,
               id := next_id, framebuffer := .None },
         next_id + 1,
         [.cglCreateContext,
          .cglSetCurrentContext host.createContextHandle])) := by
  refine ⟨?_, ?_, ?_⟩
  · intro h
    simp [Device.create_context, h]
  · intro h herr
    simp [Device.create_context, NativeContext.cgl_context, h, herr]
  · intro h herr
    simp [Device.create_context, NativeContext.cgl_context, h, herr]

/-- C1 witness: on a host where both native calls succeed, creation returns
an owned context with the next id and a `None` framebuffer, bumping the
counter, with the create and make-current calls in order. -/
theorem C1_witness :
    Device.create_context hostOk 5 =
      (.ok { native_context := .Owned 7, id := 5, framebuffer := .None }, 6,
       [.cglCreateContext, .cglSetCurrentContext 7]) :=
  (C1_create_context_steps hostOk 5).2.2 rfl rfl

/-- C2: when the surface subsystem succeeds, `destroy_context` twice on the
same context returns `Ok(())` both times, the second call changes nothing
and performs no native call, and the two calls together invoke
`CGLDestroyContext` at most once. -/
theorem C2_destroy_context_idempotent (host : CGLHost) (c : Context)
    (hds : ∀ s, host.destroySurface s = Except.ok ()) :
    (Device.destroy_context host c).1 = .ok () ∧
    (Device.destroy_context host (Device.destroy_context host c).2.1).1 =
      .ok () ∧
    (Device.destroy_context host (Device.destroy_context host c).2.1).2.1 =
      (Device.destroy_context host c).2.1 ∧
    (Device.destroy_context host (Device.destroy_context host c).2.1).2.2 =
      [] ∧
    cglDestroyCallCount ((Device.destroy_context host c).2.2 ++
      (Device.destroy_context host (Device.destroy_context host c).2.1).2.2)
      ≤ 1 := by
  obtain ⟨nc, cid, fb⟩ := c
  cases nc with
  | Owned h =>
    rcases Nat.eq_zero_or_pos h with hz | hp
    · subst hz
      simp [Device.destroy_context, NativeContext.is_destroyed,
            NativeContext.cgl_context, cglDestroyCallCount]
    · have hz : h ≠ 0 := Nat.pos_iff_ne_zero.mp hp
      cases fb <;>
        simp [Device.destroy_context, NativeContext.is_destroyed,
              NativeContext.cgl_context, NativeContext.destroy, hds, hz,
              cglDestroyCallCount]
  | External h =>
    rcases Nat.eq_zero_or_pos h with hz | hp
    · subst hz
      simp [Device.destroy_context, NativeContext.is_destroyed,
            NativeContext.cgl_context, cglDestroyCallCount]
    · have hz : h ≠ 0 := Nat.pos_iff_ne_zero.mp hp
      cases fb <;>
        simp [Device.destroy_context, NativeContext.is_destroyed,
              NativeContext.cgl_context, NativeContext.destroy, hds, hz,
              cglDestroyCallCount]

/-- C2 witness: destroying a live owned context with a bound surface twice
succeeds both times, the second call is a no-op with an empty trace, and
`CGLDestroyContext` runs at most once across the two calls. -/
theorem C2_witness :
    (Device.destroy_context hostOk ctxWithSurface).1 = .ok () ∧
    (Device.destroy_context hostOk
      (Device.destroy_context hostOk ctxWithSurface).2.1).1 = .ok () ∧
    (Device.destroy_context hostOk
        (Device.destroy_context hostOk ctxWithSurface).2.1).2.1 =
      (Device.destroy_context hostOk ctxWithSurface).2.1 ∧
    (Device.destroy_context hostOk
      (Device.destroy_context hostOk ctxWithSurface).2.1).2.2 = [] ∧
    cglDestroyCallCount ((Device.destroy_context hostOk ctxWithSurface).2.2 ++
      (Device.destroy_context hostOk
        (Device.destroy_context hostOk ctxWithSurface).2.1).2.2) ≤ 1 :=
  C2_destroy_context_idempotent hostOk ctxWithSurface (fun _ => rfl)

/-- C5: dropping a context whose owned native context is not yet destroyed
never passes silently: either the drop raises the panic, or the thread was
already panicking (so the program is aborting loudly either way). -/
theorem C5_drop_undestroyed_panics (c : Context) (h0 : CGLContextObj)
    (_howned : c.native_context = .Owned h0)
    (hlive : c.native_context.is_destroyed = false) (panicking : Bool) :
    (c.dropPanics panicking || panicking) = true := by
  cases panicking <;> simp [Context.dropPanics, hlive]

/-- C5 witness: dropping a live owned context on a non-panicking thread
panics. -/
theorem C5_witness : (ctxNone.dropPanics false || false) = true :=
  C5_drop_undestroyed_panics ctxNone 7 rfl rfl false

/-- C9: `destroy_context` on a context adopted via `from_current_context`
(external native context) never invokes the native destroy primitive
`CGLDestroyContext`, and on success the destroy only clears the locally
stored handle (the native context becomes `External 0`, which reports
destroyed). -/
theorem C9_destroy_adopted_no_native_destroy (host : CGLHost) (c : Context)
    (h0 : CGLContextObj) (hext : c.native_context = .External h0) :
    (∀ h, NativeCall.cglDestroyContext h ∉
        (Device.destroy_context host c).2.2) ∧
    ((Device.destroy_context host c).1 = .ok () →
      (Device.destroy_context host c).2.1.native_context =
          .External 0 ∧
        (Device.destroy_context host c).2.1.native_context.is_destroyed =
          true) := by
  rcases Nat.eq_zero_or_pos h0 with hz | hp
  · subst hz
    have hd : c.native_context.is_destroyed = true := by
      simp [NativeContext.is_destroyed, hext, NativeContext.cgl_context]
    constructor
    · intro h
      simp [Device.destroy_context, hd]
    · intro _
      simp [Device.destroy_context, hd, hext, NativeContext.is_destroyed,
            NativeContext.cgl_context]
  · have hz : h0 ≠ 0 := Nat.pos_iff_ne_zero.mp hp
    have hd : c.native_context.is_destroyed = false := by
      simp [NativeContext.is_destroyed, hext, NativeContext.cgl_context, hz]
    rcases hfb : c.framebuffer with _ | _ | s
    · constructor
      · intro h
        simp [Device.destroy_context, hd, hfb, hext, hz,
              NativeContext.destroy, NativeContext.is_destroyed,
              NativeContext.cgl_context]
      · intro _
        simp [Device.destroy_context, hd, hfb, hext, hz,
              NativeContext.destroy, NativeContext.is_destroyed,
              NativeContext.cgl_context]
    · constructor
      · intro h
        simp [Device.destroy_context, hd, hfb, hext, hz,
              NativeContext.destroy, NativeContext.is_destroyed,
              NativeContext.cgl_context]
      · intro _
        simp [Device.destroy_context, hd, hfb, hext, hz,
              NativeContext.destroy, NativeContext.is_destroyed,
              NativeContext.cgl_context]
    · cases hres : host.destroySurface s with
      | error e =>
        constructor
        · intro h
          simp [Device.destroy_context, hd, hfb, hres]
        · intro hok
          simp [Device.destroy_context, hd, hfb, hres] at hok
      | ok u =>
        constructor
        · intro h
          simp [Device.destroy_context, hd, hfb, hres, hext, hz,
                NativeContext.destroy, NativeContext.is_destroyed,
                NativeContext.cgl_context]
        · intro _
          simp [Device.destroy_context, hd, hfb, hres, hext, hz,
                NativeContext.destroy, NativeContext.is_destroyed,
                NativeContext.cgl_context]

/-- C9 witness: destroying a live adopted context performs no
`CGLDestroyContext` call and leaves its external native context with a
cleared handle reporting destroyed. -/
theorem C9_witness :
    NativeCall.cglDestroyContext 3 ∉
      (Device.destroy_context hostOk ctxExternalFb).2.2 ∧
    (Device.destroy_context hostOk ctxExternalFb).2.1.native_context =
      .External 0 :=
  ⟨(C9_destroy_adopted_no_native_destroy hostOk ctxExternalFb 3 rfl).1 3,
   ((C9_destroy_adopted_no_native_destroy hostOk ctxExternalFb 3 rfl).2
     rfl).1⟩

theorem requestedAttributeValue_profile (A : ContextAttributes)
    (lowPower : Bool) :
    requestedAttributeValue (cglPixelFormatAttributes A lowPower)
      kCGLPFAOpenGLProfile = some (chooseProfile A) := by
  simp [cglPixelFormatAttributes, requestedAttributeValue,
        kCGLPFAOpenGLProfile, kCGLPFAAlphaSize, kCGLPFADepthSize,
        kCGLPFAStencilSize]

theorem requestedAttributeValue_alpha (A : ContextAttributes)
    (lowPower : Bool) :
    requestedAttributeValue (cglPixelFormatAttributes A lowPower)
      kCGLPFAAlphaSize = some (if A.flags.alpha then 8 else 0) := by
  simp [cglPixelFormatAttributes, requestedAttributeValue,
        kCGLPFAOpenGLProfile, kCGLPFAAlphaSize, kCGLPFADepthSize,
        kCGLPFAStencilSize]

theorem requestedAttributeValue_depth (A : ContextAttributes)
    (lowPower : Bool) :
    requestedAttributeValue (cglPixelFormatAttributes A lowPower)
      kCGLPFADepthSize = some (if A.flags.depth then 24 else 0) := by
  simp [cglPixelFormatAttributes, requestedAttributeValue,
        kCGLPFAOpenGLProfile, kCGLPFAAlphaSize, kCGLPFADepthSize,
        kCGLPFAStencilSize]

theorem requestedAttributeValue_stencil (A : ContextAttributes)
    (lowPower : Bool) :
    requestedAttributeValue (cglPixelFormatAttributes A lowPower)
      kCGLPFAStencilSize = some (if A.flags.stencil then 8 else 0) := by
  simp [cglPixelFormatAttributes, requestedAttributeValue,
        kCGLPFAOpenGLProfile, kCGLPFAAlphaSize, kCGLPFADepthSize,
        kCGLPFAStencilSize]

theorem create_context_descriptor_ok (host : PixelFormatHost)
    (lowPower : Bool) (A : ContextAttributes) (cd : ContextDescriptor)
    (h : Device.create_context_descriptor host lowPower A = .ok cd) :
    cd.cgl_pixel_format =
      { alphaSize := if A.flags.alpha then 8 else 0,
        depthSize := if A.flags.depth then 24 else 0,
        stencilSize := if A.flags.stencil then 8 else 0,
        openGLProfile := chooseProfile A } := by
  simp only [Device.create_context_descriptor] at h
  split at h
  · simp at h
  · split at h
    · simp at h
    · simp only [Except.ok.injEq] at h
      subst h
      simp [requestedAttributeValue_profile, requestedAttributeValue_alpha,
            requestedAttributeValue_depth, requestedAttributeValue_stencil]

/-- C7: for every attribute set `A` for which descriptor selection succeeds,
`context_descriptor_attributes` on the resulting descriptor reconstructs
flags exactly equal to `A`'s flags (each of alpha/depth/stencil set iff the
queried size is nonzero), and a version equal to the decoding of the profile
tier selected from `A`'s major version: (4, 1) for the top tier, (3, 2) for
the middle tier, (1, 0) for legacy — coarsened, but never flag-lossy. -/
theorem C7_attribute_round_trip (host : PixelFormatHost) (lowPower : Bool)
    (A : ContextAttributes) (cd : ContextDescriptor)
    (h : Device.create_context_descriptor host lowPower A = .ok cd) :
    (Device.context_descriptor_attributes cd).flags = A.flags ∧
    (Device.context_descriptor_attributes cd).version =
      Device.decodeVersion (chooseProfile A) ∧
    (4 ≤ A.version.major →
      (Device.context_descriptor_attributes cd).version = ⟨4, 1⟩) ∧
    (A.version.major = 3 →
      (Device.context_descriptor_attributes cd).version = ⟨3, 2⟩) ∧
    (A.version.major < 3 →
      (Device.context_descriptor_attributes cd).version = ⟨1, 0⟩) := by
  have hpf := create_context_descriptor_ok host lowPower A cd h
  obtain ⟨⟨maj, mi⟩, fa, fd, fs⟩ := A
  refine ⟨?_, ?_, ?_, ?_, ?_⟩
  · cases fa <;> cases fd <;> cases fs <;>
      simp [Device.context_descriptor_attributes, hpf]
  · simp [Device.context_descriptor_attributes, hpf]
  · intro hmaj
    have hp : chooseProfile ⟨⟨maj, mi⟩, fa, fd, fs⟩ =
        kCGLOGLPVersion_GL4_Core := by
      simp [chooseProfile, hmaj]
    simp only [Device.context_descriptor_attributes, hpf, hp]
    decide
  · intro hmaj
    subst hmaj
    have hp : chooseProfile ⟨⟨3, mi⟩, fa, fd, fs⟩ =
        kCGLOGLPVersion_3_2_Core := by
      simp [chooseProfile]
    simp only [Device.context_descriptor_attributes, hpf, hp]
    decide
  · intro hmaj
    replace hmaj : maj < 3 := hmaj
    have h1 : ¬ maj ≥ 4 := by omega
    have h2 : maj ≠ 3 := by omega
    have hp : chooseProfile ⟨⟨maj, mi⟩, fa, fd, fs⟩ =
        kCGLOGLPVersion_Legacy := by
      simp [chooseProfile, h1, h2]
    simp only [Device.context_descriptor_attributes, hpf, hp]
    decide

/-- C7 witness: for GL 3.2 with alpha and depth requested, the selected
descriptor round-trips to exactly those flags, with the middle-tier version
(3, 2). -/
theorem C7_witness :
    (Device.context_descriptor_attributes cdA).flags = attrsA.flags ∧
    (Device.context_descriptor_attributes cdA).version = ⟨3, 2⟩ :=
  ⟨(C7_attribute_round_trip pfHostOk false attrsA cdA rfl).1,
   (C7_attribute_round_trip pfHostOk false attrsA cdA rfl).2.2.2.1 rfl⟩

/-- C8: the pixel-format request that `create_context_descriptor` builds
selects the top profile tier (`kCGLOGLPVersion_GL4_Core`) when the requested
major version is at least 4, the middle 3.2-core tier when it equals 3, and
the legacy tier otherwise; and it requests alpha size 8, depth size 24 and
stencil size 8 for the respective flags, size 0 for each absent flag. -/
theorem C8_descriptor_tier_and_sizes (A : ContextAttributes)
    (lowPower : Bool) :
    (4 ≤ A.version.major →
      requestedAttributeValue (cglPixelFormatAttributes A lowPower)
        kCGLPFAOpenGLProfile = some kCGLOGLPVersion_GL4_Core) ∧
    (A.version.major = 3 →
      requestedAttributeValue (cglPixelFormatAttributes A lowPower)
        kCGLPFAOpenGLProfile = some kCGLOGLPVersion_3_2_Core) ∧
    (A.version.major < 3 →
      requestedAttributeValue (cglPixelFormatAttributes A lowPower)
        kCGLPFAOpenGLProfile = some kCGLOGLPVersion_Legacy) ∧
    requestedAttributeValue (cglPixelFormatAttributes A lowPower)
      kCGLPFAAlphaSize = some (if A.flags.alpha then 8 else 0) ∧
    requestedAttributeValue (cglPixelFormatAttributes A lowPower)
      kCGLPFADepthSize = some (if A.flags.depth then 24 else 0) ∧
    requestedAttributeValue (cglPixelFormatAttributes A lowPower)
      kCGLPFAStencilSize = some (if A.flags.stencil then 8 else 0) := by
  refine ⟨?_, ?_, ?_, requestedAttributeValue_alpha A lowPower,
          requestedAttributeValue_depth A lowPower,
          requestedAttributeValue_stencil A lowPower⟩
  · intro hmaj
    rw [requestedAttributeValue_profile A lowPower]
    simp [chooseProfile, hmaj]
  · intro hmaj
    rw [requestedAttributeValue_profile A lowPower]
    have h1 : ¬ A.version.major ≥ 4 := by omega
    simp [chooseProfile, h1, hmaj]
  · intro hmaj
    rw [requestedAttributeValue_profile A lowPower]
    have h1 : ¬ A.version.major ≥ 4 := by omega
    have h2 : A.version.major ≠ 3 := by omega
    simp [chooseProfile, h1, h2]

/-- C8 witness: for GL 3.2 with alpha and depth requested, the request
carries the 3.2-core profile, alpha size 8, and stencil size 0. -/
theorem C8_witness :
    requestedAttributeValue (cglPixelFormatAttributes attrsA false)
      kCGLPFAOpenGLProfile = some kCGLOGLPVersion_3_2_Core ∧
    requestedAttributeValue (cglPixelFormatAttributes attrsA false)
      kCGLPFAAlphaSize = some 8 ∧
    requestedAttributeValue (cglPixelFormatAttributes attrsA false)
      kCGLPFAStencilSize = some 0 :=
  ⟨(C8_descriptor_tier_and_sizes attrsA false).2.1 rfl,
   (C8_descriptor_tier_and_sizes attrsA false).2.2.2.1,
   (C8_descriptor_tier_and_sizes attrsA false).2.2.2.2.2⟩

end Surfman
